import Mathlib

/-!
Shallow embedding of the opencollective-api sources under verification:

* the "Open Collective" payment-method provider (`processOrder`,
  `refundTransaction`) — the module appended to `src/config/production.json`;
* the GraphQL account mutations in
  `src/server/graphql/v2/mutation/AccountMutations.ts`
  (`editAccountFeeStructure`, `editAccountFreezeStatus`,
  `addTwoFactorAuthTokenToIndividual`, `removeTwoFactorAuthTokenFromIndividual`).

Monetary amounts and fx rates are embedded as rationals (JS numbers used
exactly in products and divisions by 100).  Asynchronous database reads
(`getHostCollective`, `getBalance`, `findByPk`) become explicit parameters,
and a thrown JS `Error` / typed GraphQL error becomes `Except.error`.
-/

namespace OC

/-- Decidable equality for `Except`, so that witnesses can be settled by
`decide` on concrete inputs. -/
instance {ε α : Type} [DecidableEq ε] [DecidableEq α] : DecidableEq (Except ε α) := fun a b =>
  match a, b with
  | .error x, .error y =>
    if h : x = y then isTrue (by rw [h]) else isFalse (by intro hc; cases hc; exact h rfl)
  | .ok x, .ok y =>
    if h : x = y then isTrue (by rw [h]) else isFalse (by intro hc; cases hc; exact h rfl)
  | .error _, .ok _ => isFalse (by intro hc; cases hc)
  | .ok _, .error _ => isFalse (by intro hc; cases hc)

/-- The `TransactionTypes` enum from `constants/transactions`. -/
inductive TransactionType where
  | CREDIT
  | DEBIT
deriving DecidableEq, Repr

/-- A fiscal host row, as returned by `collective.getHostCollective()`. -/
structure Host where
  id : Nat
  name : String
  currency : String
deriving DecidableEq, Repr

/-- The slice of a collective row read by `processOrder`
(`order.fromCollective` / `order.collective`): its id, active flag, and the
result of `getHostCollective()` (`none` embeds a collective without host). -/
structure OrderCollective where
  id : Nat
  isActive : Bool
  host : Option Host
deriving DecidableEq, Repr

/-- The slice of a payment-method row read by `processOrder`. -/
structure PaymentMethod where
  CollectiveId : Nat
  currency : String
deriving DecidableEq, Repr

/-- The `order.data` fields read by `processOrder`; `none` embeds an absent JS
property (`get(order, 'data.hostFeePercent', 0)` defaults it to `0`). -/
structure OrderData where
  hostFeePercent : Option ℚ
  platformFeePercent : Option ℚ
  platformFee : Option ℚ
  isFeesOnTop : Option Bool
deriving DecidableEq, Repr

/-- The slice of an order read by `processOrder`. -/
structure Order where
  id : Nat
  CreatedByUserId : Nat
  FromCollectiveId : Nat
  CollectiveId : Nat
  PaymentMethodId : Nat
  totalAmount : ℚ
  currency : String
  taxAmount : ℚ
  description : String
  fromCollective : OrderCollective
  collective : OrderCollective
  paymentMethod : PaymentMethod
  data : OrderData
deriving DecidableEq, Repr

/-- The `payload.transaction` object that `processOrder` hands to
`models.Transaction.createFromPayload`. -/
structure ProviderTransaction where
  type : TransactionType
  OrderId : Nat
  amount : ℚ
  currency : String
  hostCurrency : String
  hostCurrencyFxRate : ℚ
  netAmountInCollectiveCurrency : ℚ
  amountInHostCurrency : ℚ
  hostFeeInHostCurrency : ℚ
  platformFeeInHostCurrency : ℚ
  taxAmount : ℚ
  paymentProcessorFeeInHostCurrency : ℚ
  description : String
  isFeesOnTop : Option Bool
deriving DecidableEq, Repr

/-- Modelled from the spec: `paymentsLib.calcFee` lives in `lib/payments`,
which is not under `src/`; the spec states that "fee fields are proportional
to their configured percentages", so the fee on `amount` at `feePercent` is
the exact proportion `amount * feePercent / 100`. -/
def calcFee (amount : ℚ) (feePercent : ℚ) : ℚ :=
  amount * feePercent / 100

/-- Embeds `paymentMethodProvider.processOrder`.  Here `fxRate from to` stands for the
awaited `getFxRate(from, to)` (`lib/currency`, not under `src/`), and
`getBalance pm` for `paymentMethodProvider.getBalance(pm)`, which the source
documents as the balance of the payment method's collective in the currency
of the payment method.  An `Except.ok` value is the `payload.transaction`
passed to `models.Transaction.createFromPayload`; every `throw` in the source
becomes `Except.error` with the source's message, and on an error no payload
ever reaches the ledger. -/
def processOrder (fxRate : String → String → ℚ) (getBalance : PaymentMethod → ℚ)
    (order : Order) : Except String ProviderTransaction :=
  if order.fromCollective.isActive = false then
    .error "Cannot use the Open Collective payment method if not active."
  else if order.paymentMethod.CollectiveId ≠ order.fromCollective.id then
    .error "Cannot use the Open Collective payment method to make a payment on behalf of another collective"
  else
    match order.fromCollective.host, order.collective.host with
    | none, _ => .error "Cannot use the Open Collective payment method without an Host."
    | some _, none => .error "Cannot use the Open Collective payment method to a recipient without an Host."
    | some fromCollectiveHost, some collectiveHost =>
      if fromCollectiveHost.id ≠ collectiveHost.id then
        .error ("Cannot use the Open Collective payment method to make a payment between different hosts: "
          ++ fromCollectiveHost.name ++ " -> " ++ collectiveHost.name)
      else if getBalance order.paymentMethod < order.totalAmount then
        .error "Not enough funds available to execute this order"
      else
        let hostFeePercent := order.data.hostFeePercent.getD 0
        let platformFeePercent := order.data.platformFeePercent.getD 0
        let fxrate := fxRate order.currency order.paymentMethod.currency
        let totalAmountInPaymentMethodCurrency := order.totalAmount * fxrate
        let feeOnTop := (order.data.platformFee.getD 0)
        let hostFeeInHostCurrency := calcFee ((order.totalAmount - feeOnTop) * fxrate) hostFeePercent
        let platformFeeInHostCurrency :=
          if feeOnTop = 0 then calcFee (order.totalAmount * fxrate) platformFeePercent
          else feeOnTop * fxrate
        .ok
          { type := .CREDIT
            OrderId := order.id
            amount := order.totalAmount
            currency := order.currency
            hostCurrency := collectiveHost.currency
            hostCurrencyFxRate := fxrate
            netAmountInCollectiveCurrency := order.totalAmount * (1 - hostFeePercent / 100)
            amountInHostCurrency := totalAmountInPaymentMethodCurrency
            hostFeeInHostCurrency := hostFeeInHostCurrency
            platformFeeInHostCurrency := platformFeeInHostCurrency
            taxAmount := order.taxAmount
            paymentProcessorFeeInHostCurrency := 0
            description := order.description
            isFeesOnTop := order.data.isFeesOnTop }

/-- A collective row as read by `refundTransaction`
(`models.Collective.findByPk`): id, `HostCollectiveId` and currency. -/
structure RefundCollective where
  id : Nat
  HostCollectiveId : Option Nat
  currency : String
deriving DecidableEq, Repr

/-- The slice of a ledger transaction read by `refundTransaction`. -/
structure LedgerTransaction where
  type : TransactionType
  FromCollectiveId : Nat
  CollectiveId : Nat
  amount : ℚ
  currency : String
deriving DecidableEq, Repr

/-- Embeds `[fromCollective, collective] = transaction.type === CREDIT ?
collectives : collectives.reverse()`: which fetched row plays payer and which plays
recipient of the original funds. -/
def resolvedPair (transaction : LedgerTransaction)
    (fromRow collRow : RefundCollective) : RefundCollective × RefundCollective :=
  if transaction.type = TransactionType.CREDIT then (fromRow, collRow) else (collRow, fromRow)

/-- A ledger entry, the shape shared by the original transaction and its
refund, for the balance model below. -/
structure Entry where
  type : TransactionType
  FromCollectiveId : Nat
  CollectiveId : Nat
  amount : ℚ
deriving DecidableEq, Repr

/-- The entry recorded by the ledger for a transaction. -/
def LedgerTransaction.entry (t : LedgerTransaction) : Entry :=
  { type := t.type, FromCollectiveId := t.FromCollectiveId
    CollectiveId := t.CollectiveId, amount := t.amount }

/-- Modelled from the spec: the effect of one ledger entry on the balance of
account `c`.  The spec's data model says a transaction records a movement of
funds between two collectives and that "a Transaction's debit/credit pair
must net to zero across the two ledger sides": the entry adds `amount` to
its recipient and removes `amount` from its payer. -/
def entryEffect (c : Nat) (e : Entry) : ℚ :=
  (if e.CollectiveId = c then e.amount else 0)
    - (if e.FromCollectiveId = c then e.amount else 0)

/-- Balance of account `c` after a list of ledger entries. -/
def balanceOfLedger (ledger : List Entry) (c : Nat) : ℚ :=
  (ledger.map (entryEffect c)).sum

/-- Modelled from the spec: `paymentsLib.createRefundTransaction` lives in
`lib/payments`, which is not under `src/`; per the spec (§4.2) the refund
"creates an opposing ledger entry", so the refund entry reverses the
direction of the refunded transaction. -/
def createRefundTransaction (t : LedgerTransaction) : Entry :=
  { type := if t.type = TransactionType.CREDIT then TransactionType.DEBIT else TransactionType.CREDIT
    FromCollectiveId := t.CollectiveId
    CollectiveId := t.FromCollectiveId
    amount := t.amount }

/-- What `refundTransaction` hands to `paymentsLib.createRefundTransaction`:
the opposing entry and the refunded payment-processor fee argument (the
source passes the literal `0`). -/
structure RefundResult where
  refundEntry : Entry
  refundedPaymentProcessorFee : ℚ
deriving DecidableEq, Repr

/-- Embeds `paymentMethodProvider.refundTransaction`.  Here `fromRow` and `collRow` are
the awaited `findByPk` results for `transaction.FromCollectiveId` and
`transaction.CollectiveId`; `balanceOf c` is the awaited
`collective.getBalance()` for the collective with id `c`. -/
def refundTransaction (balanceOf : Nat → ℚ) (fromRow collRow : RefundCollective)
    (transaction : LedgerTransaction) : Except String RefundResult :=
  let fromCollective := (resolvedPair transaction fromRow collRow).1
  let collective := (resolvedPair transaction fromRow collRow).2
  match fromCollective.HostCollectiveId with
  | none => .error "Cannot process refunds for collectives without a host"
  | some _ =>
    if fromCollective.HostCollectiveId ≠ collective.HostCollectiveId then
      .error "Cannot process refunds for collectives with different hosts"
    else if balanceOf collective.id < transaction.amount then
      .error "Not enough funds available to process this refund"
    else
      .ok { refundEntry := createRefundTransaction transaction
            refundedPaymentProcessorFee := 0 }

/-! ## `AccountMutations.ts` -/

/-- The typed client-facing errors from `graphql/errors`. -/
inductive GqlError where
  | Unauthorized (msg : String)
  | Forbidden (msg : String)
  | NotFound (msg : String)
  | ValidationFailed (msg : String)
  | BadRequest (msg : String)
deriving DecidableEq, Repr

/-- The `TwoFactorMethod` enum from `lib/two-factor-authentication`. -/
inductive TwoFactorMethod where
  | TOTP
  | YUBIKEY_OTP
  | WEBAUTHN
  | RECOVERY_CODE
deriving DecidableEq, Repr

/-- A `UserTwoFactorMethod` row: credential id, owning user, method kind,
display name and (encrypted) credential data. -/
structure UserTwoFactorMethodRow where
  id : Nat
  UserId : Nat
  method : TwoFactorMethod
  name : String
  data : String
deriving DecidableEq, Repr

/-- The slice of a `User` row these mutations touch: its id, the individual
collective it belongs to, the user's enrolled two-factor method rows (what
`TwoFactorAuthLib.twoFactorMethodsSupportedByUser` reports), and the stored
(hashed) recovery codes, `none` embedding SQL `NULL`. -/
structure UserRow where
  id : Nat
  CollectiveId : Nat
  methods : List UserTwoFactorMethodRow
  twoFactorAuthRecoveryCodes : Option (List String)
deriving DecidableEq, Repr

/-- Embeds `args.token.match` against the TOTP-secret regex: `true` iff the string contains a
run of at least 103 consecutive characters in `[A-Z2-7]`. -/
def isTotpSecretChar (c : Char) : Bool :=
  (('A' ≤ c) && (c ≤ 'Z')) || (('2' ≤ c) && (c ≤ '7'))

/-- Longest run of characters satisfying `isTotpSecretChar`, scanning with
the current run length and the best run seen so far. -/
def totpRunScan : List Char → Nat → Nat → Nat
  | [], cur, best => max cur best
  | c :: rest, cur, best =>
    if isTotpSecretChar c then totpRunScan rest (cur + 1) best
    else totpRunScan rest 0 (max cur best)

/-- Whether the submitted TOTP secret passes the source's regex check. -/
def totpSecretMatches (s : String) : Bool :=
  103 ≤ totpRunScan s.data 0 0

/-- A WebAuthn device record as produced by `webauthn.getWebauthDeviceData`;
only the optional description is read by this mutation. -/
structure WebauthnDevice where
  description : Option String
  data : String
deriving DecidableEq, Repr

/-- The mutation's effect: the updated user row (stored state) and the
`recoveryCodes` field of the GraphQL response (plaintext, `none` when the
field is left undefined). -/
structure AddTwoFactorResult where
  user : UserRow
  recoveryCodes : Option (List String)
deriving DecidableEq, Repr

/-- The `switch (type)` block of `addTwoFactorAuthTokenToIndividual`:
validate the submitted proof for the requested method kind and build the
`UserTwoFactorMethod` row to create, or fail with the source's error. -/
def createTwoFactorCredential (type : TwoFactorMethod) (userId : Nat) (token : String)
    (yubikeyValid : Bool) (webauthnDevice : Option WebauthnDevice)
    (encrypt : String → String) (nextMethodId : Nat) :
    Except GqlError UserTwoFactorMethodRow :=
  match type with
  | TwoFactorMethod.TOTP =>
    if totpSecretMatches token = false then .error (.ValidationFailed "Invalid 2FA token")
    else .ok { id := nextMethodId, UserId := userId, method := TwoFactorMethod.TOTP
               name := "Authenticator", data := encrypt token }
  | TwoFactorMethod.YUBIKEY_OTP =>
    if yubikeyValid = false then .error (.ValidationFailed "Invalid 2FA token")
    else .ok { id := nextMethodId, UserId := userId, method := TwoFactorMethod.YUBIKEY_OTP
               name := "Yubikey " ++ token.take 12, data := token.take 12 }
  | TwoFactorMethod.WEBAUTHN =>
    match webauthnDevice with
    | none => .error (.BadRequest "Invalid WebAuthn registration response")
    | some device =>
      .ok { id := nextMethodId, UserId := userId, method := TwoFactorMethod.WEBAUTHN
            name := device.description.getD "U2F device", data := device.data }
  | TwoFactorMethod.RECOVERY_CODE => .error (.ValidationFailed "Unsupported 2FA method")

/-- The tail of `addTwoFactorAuthTokenToIndividual` after the credential row
has been created: on first-ever enrollment (`userEnabledMethods.length === 0`,
counted before the creation) generate six recovery codes, store their hashes
on the user and return the plaintext; otherwise return no codes. -/
def addTwoFactorFinish (user : UserRow) (row : UserTwoFactorMethodRow)
    (hash : String → String) (genCode : Nat → String) : AddTwoFactorResult :=
  if user.methods.length = 0 then
    let recoveryCodesArray := (List.range 6).map genCode
    let hashedRecoveryCodesArray := recoveryCodesArray.map hash
    let updatedUser := { user with
      methods := user.methods ++ [row]
      twoFactorAuthRecoveryCodes := some hashedRecoveryCodesArray }
    { user := updatedUser, recoveryCodes := some recoveryCodesArray }
  else
    let updatedUser := { user with methods := user.methods ++ [row] }
    { user := updatedUser, recoveryCodes := none }

/-- Embeds `addTwoFactorAuthTokenToIndividual`.  External effects are parameters:
`canUseAccount` is `checkRemoteUserCanUseAccount` succeeding,
`isAdminOfCollective` the admin check, `userRow` the `models.User.findOne`
result, `twoFactorValidated` whether `TwoFactorAuthLib.validateRequest`
would pass, `yubikeyValid` the remote `validateYubikeyOTP` result,
`webauthnDevice` the verified registration (`none` when
`verifyRegistrationResponse` rejects), `encrypt`/`hash` the `crypto`
helpers, `genCode i` the `i`-th `cryptoRandomString` draw and `nextMethodId`
the id the database assigns to the created credential row. -/
def addTwoFactorAuthTokenToIndividual
    (canUseAccount isAdminOfCollective : Bool) (userRow : Option UserRow)
    (twoFactorValidated : Bool) (argType : Option TwoFactorMethod) (token : String)
    (yubikeyValid : Bool) (webauthnDevice : Option WebauthnDevice)
    (encrypt hash : String → String) (genCode : Nat → String) (nextMethodId : Nat) :
    Except GqlError AddTwoFactorResult :=
  if canUseAccount = false then .error (.Unauthorized "")
  else if isAdminOfCollective = false then .error (.Forbidden "")
  else
    match userRow with
    | none => .error (.NotFound "Account not found.")
    | some user =>
      let type := argType.getD TwoFactorMethod.TOTP
      if 0 < user.methods.length ∧ twoFactorValidated = false then
        .error (.Unauthorized "Two-factor authentication required")
      else
        match createTwoFactorCredential type user.id token yubikeyValid webauthnDevice
          encrypt nextMethodId with
        | .error e => .error e
        | .ok row => .ok (addTwoFactorFinish user row hash genCode)

/-- The part of the `removeTwoFactorAuthTokenFromIndividual` resolver after
the method-reference checks: find the user, reject when 2FA is already
disabled, re-validate the session's 2FA assertion, delete the credential(s),
and clear the stored recovery codes when no method remains. -/
def removeTwoFactorAuthBody (userTwoFactorMethod : Option UserTwoFactorMethodRow)
    (userRow : Option UserRow) (argType : Option TwoFactorMethod)
    (twoFactorValidated : Bool) : Except GqlError UserRow :=
  match userRow with
  | none => .error (.NotFound "Account not found.")
  | some user =>
    if user.methods.length = 0 then
      .error (.Unauthorized "This account already has 2FA disabled.")
    else if twoFactorValidated = false then
      .error (.Unauthorized "Two-factor authentication required")
    else
      let remaining :=
        match userTwoFactorMethod with
        | some m => user.methods.filter (fun r => r.id ≠ m.id)
        | none =>
          match argType with
          | some t => user.methods.filter (fun r => ¬(r.UserId = user.id ∧ r.method = t))
          | none => user.methods.filter (fun r => r.UserId ≠ user.id)
      if remaining.length = 0 then
        .ok { user with methods := remaining, twoFactorAuthRecoveryCodes := none }
      else
        .ok { user with methods := remaining }

/-- Embeds `removeTwoFactorAuthTokenFromIndividual`.  Here `methodRefArg` embeds
`args.userTwoFactorMethod`: `none` when the argument is absent, `some none`
when the referenced row does not exist (`throwIfMissing`), `some (some m)`
when it resolves to `m`.  `remoteUserId` is `req.remoteUser.id`, `userRow`
the `models.User.findOne` result, `argType` the deprecated `args.type`, and
`twoFactorValidated` whether `TwoFactorAuthLib.validateRequest` would pass.
The result is the user row after deletion. -/
def removeTwoFactorAuthTokenFromIndividual
    (canUseAccount isAdminOfCollective : Bool)
    (methodRefArg : Option (Option UserTwoFactorMethodRow)) (remoteUserId : Nat)
    (userRow : Option UserRow) (argType : Option TwoFactorMethod)
    (twoFactorValidated : Bool) : Except GqlError UserRow :=
  if canUseAccount = false then .error (.Unauthorized "")
  else if isAdminOfCollective = false then .error (.Forbidden "")
  else
    match methodRefArg with
    | some none => .error (.NotFound "UserTwoFactorMethod not found")
    | some (some m) =>
      if m.UserId ≠ remoteUserId then .error (.Forbidden "")
      else removeTwoFactorAuthBody (some m) userRow argType twoFactorValidated
    | none => removeTwoFactorAuthBody none userRow argType twoFactorValidated

/-- The slice of a collective row read by `editAccountFeeStructure`:
`approved` is the truthiness of `account.approvedAt`, `useCustomHostFee`
the `account.data.useCustomHostFee` flag. -/
structure FeeAccount where
  id : Nat
  HostCollectiveId : Option Nat
  approved : Bool
  hostFeePercent : ℚ
  useCustomHostFee : Option Bool
deriving DecidableEq, Repr

/-- The host row fetched with `models.Collective.findByPk`; only its own
`hostFeePercent` is read. -/
structure HostRow where
  hostFeePercent : ℚ
deriving DecidableEq, Repr

/-- The `previousData`/`newData` of the audit `Activity` row written by
`editAccountFeeStructure`. -/
structure FeeActivityData where
  prevHostFeePercent : ℚ
  prevUseCustomHostFee : Option Bool
  newHostFeePercent : ℚ
  newUseCustomHostFee : Bool
deriving DecidableEq, Repr

/-- Everything `editAccountFeeStructure` writes inside its database
transaction: the updated account, its updated children, and the audit
activity. -/
structure FeeStructureResult where
  account : FeeAccount
  children : List FeeAccount
  activity : FeeActivityData
deriving DecidableEq, Repr

/-- Embeds `editAccountFeeStructure`.  Here `canUseHost` is `checkRemoteUserCanUseHost`
succeeding, `isHostAdmin` is `req.remoteUser.isAdmin(account.HostCollectiveId)`,
`host` the fetched host row and `children` the `account.getChildren()` rows.
The whole body runs in one `sequelize.transaction`, so an `Except.error`
leaves every row untouched and an `Except.ok` commits all writes at once. -/
def editAccountFeeStructure (canUseHost isHostAdmin : Bool) (host : HostRow)
    (account : FeeAccount) (children : List FeeAccount)
    (argHostFeePercent : ℚ) (isCustomFee : Bool) : Except GqlError FeeStructureResult :=
  if canUseHost = false then .error (.Unauthorized "")
  else
    match account.HostCollectiveId with
    | none => .error (.ValidationFailed "Fees structure can only be edited for accounts that you are hosting")
    | some _ =>
      if isHostAdmin = false then
        .error (.Forbidden "You need to be logged in as an host admin to change the fees structure of the hosted accounts")
      else if account.approved = false then
        .error (.ValidationFailed "The collective needs to be approved before you can change the fees structure")
      else
        let hostFeePercent := if isCustomFee then argHostFeePercent else host.hostFeePercent
        let updateAccountFees := fun (a : FeeAccount) =>
          { a with hostFeePercent := hostFeePercent, useCustomHostFee := some isCustomFee }
        .ok { account := updateAccountFees account
              children := children.map updateAccountFees
              activity := { prevHostFeePercent := account.hostFeePercent
                            prevUseCustomHostFee := account.useCustomHostFee
                            newHostFeePercent := argHostFeePercent
                            newUseCustomHostFee := isCustomFee } }

/-- The `CollectiveType` enum from `constants/collectives` (the kinds this file
discriminates on). -/
inductive CollectiveType where
  | COLLECTIVE
  | FUND
  | EVENT
  | PROJECT
  | USER
  | ORGANIZATION
deriving DecidableEq, Repr

/-- The `AccountFreezeAction` GraphQL enum. -/
inductive FreezeAction where
  | FREEZE
  | UNFREEZE
deriving DecidableEq, Repr

/-- The slice of an account read by `editAccountFreezeStatus`: its type, the
awaited `getHostCollective()` result, and its frozen status (the flag
`account.freeze`/`account.unfreeze` toggle — those model methods are not
under `src/`; the spec describes them as freezing/unfreezing the account). -/
structure FreezeAccount where
  id : Nat
  type : CollectiveType
  host : Option Host
  isFrozen : Bool
deriving DecidableEq, Repr

/-- Embeds `editAccountFreezeStatus`.  Here `canUseHost` is `checkRemoteUserCanUseHost`
succeeding and `isAdminOfHost` is `req.remoteUser.isAdminOfCollective(account.host)`. -/
def editAccountFreezeStatus (canUseHost isAdminOfHost : Bool)
    (account : FreezeAccount) (action : FreezeAction) : Except GqlError FreezeAccount :=
  if canUseHost = false then .error (.Unauthorized "")
  else
    match account.host with
    | none => .error (.ValidationFailed "Cannot find the host of this account")
    | some _ =>
      if isAdminOfHost = false then .error (.Unauthorized "")
      else if account.type ≠ CollectiveType.COLLECTIVE ∧ account.type ≠ CollectiveType.FUND then
        .error (.ValidationFailed "Only collective and funds can be frozen. To freeze children accounts (projects, events) you need to freeze the parent account.")
      else
        match action with
        | FreezeAction.FREEZE => .ok { account with isFrozen := true }
        | FreezeAction.UNFREEZE => .ok { account with isFrozen := false }

/-! ## Sample inputs used by the witnesses -/

/-- A concrete fiscal host. -/
def sampleHost : Host := { id := 1, name := "Host", currency := "USD" }

/-- A concrete order on which `processOrder` succeeds: both collectives are
hosted by `sampleHost`, the payment method belongs to the payer, 5% host fee
and 10% platform fee, no fee on top. -/
def sampleOrder : Order :=
  { id := 10, CreatedByUserId := 1, FromCollectiveId := 2, CollectiveId := 3
    PaymentMethodId := 4, totalAmount := 1000, currency := "USD", taxAmount := 0
    description := "contribution"
    fromCollective := { id := 2, isActive := true, host := some sampleHost }
    collective := { id := 3, isActive := true, host := some sampleHost }
    paymentMethod := { CollectiveId := 2, currency := "USD" }
    data := { hostFeePercent := some 5, platformFeePercent := some 10
              platformFee := none, isFeesOnTop := none } }

/-- A concrete fx-rate environment: every conversion is at rate 2. -/
def sampleFx : String → String → ℚ := fun _ _ => 2

/-- A concrete balance environment for `processOrder`: 5000 available. -/
def sampleGetBalance : PaymentMethod → ℚ := fun _ => 5000

/-- The transaction payload `processOrder` builds on `sampleOrder`. -/
def sampleTx : ProviderTransaction :=
  { type := TransactionType.CREDIT, OrderId := 10, amount := 1000, currency := "USD"
    hostCurrency := "USD", hostCurrencyFxRate := 2
    netAmountInCollectiveCurrency := 950, amountInHostCurrency := 2000
    hostFeeInHostCurrency := 100, platformFeeInHostCurrency := 200
    taxAmount := 0, paymentProcessorFeeInHostCurrency := 0
    description := "contribution", isFeesOnTop := none }

/-! ## Claims -/

/-- C1: for every order accepted by `processOrder`, the created transaction's
`amountInHostCurrency` equals `order.totalAmount` times the fx rate obtained
from the order's currency to the payment method's currency, the host fee is
proportional (at the order's configured `hostFeePercent`) to the total minus
any explicit fee-on-top, and the platform fee is proportional to the total at
`platformFeePercent` when no fee-on-top is given and is the converted
fee-on-top otherwise. -/
theorem processOrder_amount_and_fees (fxRate : String → String → ℚ)
    (getBalance : PaymentMethod → ℚ) (order : Order) (t : ProviderTransaction)
    (h : processOrder fxRate getBalance order = Except.ok t) :
    t.amountInHostCurrency
        = order.totalAmount * fxRate order.currency order.paymentMethod.currency
      ∧ t.hostFeeInHostCurrency
        = (order.totalAmount - order.data.platformFee.getD 0)
            * fxRate order.currency order.paymentMethod.currency
            * (order.data.hostFeePercent.getD 0) / 100
      ∧ (order.data.platformFee.getD 0 = 0 →
          t.platformFeeInHostCurrency
            = order.totalAmount * fxRate order.currency order.paymentMethod.currency
                * (order.data.platformFeePercent.getD 0) / 100)
      ∧ (order.data.platformFee.getD 0 ≠ 0 →
          t.platformFeeInHostCurrency
            = order.data.platformFee.getD 0
                * fxRate order.currency order.paymentMethod.currency) := by
  unfold processOrder at h
  split at h
  · exact Except.noConfusion h
  split at h
  · exact Except.noConfusion h
  split at h
  · exact Except.noConfusion h
  · exact Except.noConfusion h
  split at h
  · exact Except.noConfusion h
  split at h
  · exact Except.noConfusion h
  injection h with h
  subst h
  refine ⟨rfl, rfl, ?_, ?_⟩
  · intro h0
    simp [calcFee, h0]
  · intro h0
    simp only [calcFee, if_neg h0]

/-- Witness for C1 at `sampleOrder` with `sampleFx`/`sampleGetBalance`. -/
theorem processOrder_amount_and_fees_witness :
    sampleTx.amountInHostCurrency
        = sampleOrder.totalAmount * sampleFx sampleOrder.currency sampleOrder.paymentMethod.currency
      ∧ sampleTx.hostFeeInHostCurrency
        = (sampleOrder.totalAmount - sampleOrder.data.platformFee.getD 0)
            * sampleFx sampleOrder.currency sampleOrder.paymentMethod.currency
            * (sampleOrder.data.hostFeePercent.getD 0) / 100
      ∧ (sampleOrder.data.platformFee.getD 0 = 0 →
          sampleTx.platformFeeInHostCurrency
            = sampleOrder.totalAmount * sampleFx sampleOrder.currency sampleOrder.paymentMethod.currency
                * (sampleOrder.data.platformFeePercent.getD 0) / 100)
      ∧ (sampleOrder.data.platformFee.getD 0 ≠ 0 →
          sampleTx.platformFeeInHostCurrency
            = sampleOrder.data.platformFee.getD 0
                * sampleFx sampleOrder.currency sampleOrder.paymentMethod.currency) :=
  processOrder_amount_and_fees sampleFx sampleGetBalance sampleOrder sampleTx
    (by norm_num [processOrder, sampleOrder, sampleHost, sampleFx, sampleGetBalance, sampleTx, calcFee])

/-- C2: a cross-host order is rejected by `processOrder` and a cross-host
refund is rejected by `refundTransaction`; both return an error, and since
`models.Transaction.createFromPayload` / `paymentsLib.createRefundTransaction`
are only reached on the `Except.ok` path, no ledger state is mutated. -/
theorem crossHost_order_and_refund_error (fxRate : String → String → ℚ)
    (getBalance : PaymentMethod → ℚ) (order : Order)
    (balanceOf : Nat → ℚ) (fromRow collRow : RefundCollective) (tx : LedgerTransaction)
    (hOrder : order.fromCollective.host.map Host.id ≠ order.collective.host.map Host.id)
    (hRefund : fromRow.HostCollectiveId ≠ collRow.HostCollectiveId) :
    (∃ e, processOrder fxRate getBalance order = Except.error e) ∧
    (∃ e, refundTransaction balanceOf fromRow collRow tx = Except.error e) := by
  constructor
  · unfold processOrder
    split
    · exact ⟨_, rfl⟩
    split
    · exact ⟨_, rfl⟩
    split
    · exact ⟨_, rfl⟩
    · exact ⟨_, rfl⟩
    · rename_i hf hc
      split
      · exact ⟨_, rfl⟩
      · rename_i hids
        refine absurd ?_ hOrder
        rw [hf, hc]
        simp [not_not.mp hids]
  · have hfc : (resolvedPair tx fromRow collRow).1.HostCollectiveId
        ≠ (resolvedPair tx fromRow collRow).2.HostCollectiveId := by
      unfold resolvedPair
      split
      · simpa using hRefund
      · simpa using fun h => hRefund h.symm
    unfold refundTransaction
    dsimp only
    cases hhost : (resolvedPair tx fromRow collRow).1.HostCollectiveId with
    | none => exact ⟨_, rfl⟩
    | some hostId =>
      rw [if_pos (hhost ▸ hfc)]
      exact ⟨_, rfl⟩

/-- A second host, distinct from `sampleHost`. -/
def otherHost : Host := { id := 9, name := "Other", currency := "EUR" }

/-- Copies `sampleOrder` with the recipient hosted by `otherHost`: a cross-host
order. -/
def crossHostOrder : Order :=
  { sampleOrder with collective := { id := 3, isActive := true, host := some otherHost } }

/-- A concrete fetched payer row for the refund, hosted by collective 1. -/
def refundFromRow : RefundCollective := { id := 2, HostCollectiveId := some 1, currency := "USD" }

/-- A concrete fetched recipient row for the refund, hosted by collective 9. -/
def refundCollRow : RefundCollective := { id := 3, HostCollectiveId := some 9, currency := "USD" }

/-- A concrete CREDIT ledger transaction between collectives 2 and 3. -/
def sampleLedgerTx : LedgerTransaction :=
  { type := TransactionType.CREDIT, FromCollectiveId := 2, CollectiveId := 3
    amount := 100, currency := "USD" }

/-- Witness for C2: the concrete cross-host order and the concrete
cross-host refund both produce errors. -/
theorem crossHost_order_and_refund_error_witness :
    (∃ e, processOrder sampleFx sampleGetBalance crossHostOrder = Except.error e) ∧
    (∃ e, refundTransaction (fun _ => 1000) refundFromRow refundCollRow sampleLedgerTx
      = Except.error e) :=
  crossHost_order_and_refund_error sampleFx sampleGetBalance crossHostOrder
    (fun _ => 1000) refundFromRow refundCollRow sampleLedgerTx
    (by simp [crossHostOrder, sampleOrder, sampleHost, otherHost])
    (by simp [refundFromRow, refundCollRow])

/-- C3: a user with zero enrolled two-factor methods who successfully
completes enrollment gets exactly six recovery codes: the plaintext codes
are returned in the response and only their hashes are stored on the user
row; a user who already had at least one enrolled method gets no new
recovery codes and their stored codes are untouched. -/
theorem addTwoFactor_recovery_codes (canUse isAdmin : Bool) (user : UserRow)
    (validated : Bool) (argType : Option TwoFactorMethod) (token : String)
    (yubikeyValid : Bool) (device : Option WebauthnDevice)
    (encrypt hash : String → String) (genCode : Nat → String) (nid : Nat)
    (r : AddTwoFactorResult)
    (h : addTwoFactorAuthTokenToIndividual canUse isAdmin (some user) validated
      argType token yubikeyValid device encrypt hash genCode nid = Except.ok r) :
    (user.methods = [] → ∃ codes, r.recoveryCodes = some codes ∧ codes.length = 6 ∧
      r.user.twoFactorAuthRecoveryCodes = some (codes.map hash)) ∧
    (user.methods ≠ [] → r.recoveryCodes = none ∧
      r.user.twoFactorAuthRecoveryCodes = user.twoFactorAuthRecoveryCodes) := by
  unfold addTwoFactorAuthTokenToIndividual at h
  dsimp only at h
  split at h
  · exact Except.noConfusion h
  split at h
  · exact Except.noConfusion h
  split at h
  · exact Except.noConfusion h
  split at h
  · exact Except.noConfusion h
  injection h with h
  subst h
  constructor
  · intro hnil
    refine ⟨(List.range 6).map genCode, ?_, by simp, ?_⟩
    · unfold addTwoFactorFinish
      rw [if_pos (by simp [hnil])]
    · unfold addTwoFactorFinish
      rw [if_pos (by simp [hnil])]
  · intro hne
    have hlen : user.methods.length ≠ 0 := fun h0 => hne (List.length_eq_zero.mp h0)
    unfold addTwoFactorFinish
    rw [if_neg hlen]
    exact ⟨rfl, rfl⟩

/-- A user with no enrolled two-factor method and no stored recovery codes. -/
def sampleUserNo2FA : UserRow :=
  { id := 7, CollectiveId := 5, methods := [], twoFactorAuthRecoveryCodes := none }

/-- A syntactically valid TOTP secret: 103 base32 characters. -/
def sampleTotpSecret : String := String.mk (List.replicate 103 'A')

/-- The result of enrolling `sampleUserNo2FA` with `sampleTotpSecret`,
identity encryption, hash `s ↦ s ++ "h"` and constant code generator. -/
def sampleAddResult : AddTwoFactorResult :=
  { user := { id := 7, CollectiveId := 5
              methods := [{ id := 1, UserId := 7, method := TwoFactorMethod.TOTP
                            name := "Authenticator", data := sampleTotpSecret }]
              twoFactorAuthRecoveryCodes := some (List.replicate 6 "CODEh") }
    recoveryCodes := some (List.replicate 6 "CODE") }

set_option maxRecDepth 4000 in
/-- Witness for C3: the concrete first-time TOTP enrollment. -/
theorem addTwoFactor_recovery_codes_witness :
    (sampleUserNo2FA.methods = [] → ∃ codes,
      sampleAddResult.recoveryCodes = some codes ∧ codes.length = 6 ∧
      sampleAddResult.user.twoFactorAuthRecoveryCodes = some (codes.map (fun s => s ++ "h"))) ∧
    (sampleUserNo2FA.methods ≠ [] → sampleAddResult.recoveryCodes = none ∧
      sampleAddResult.user.twoFactorAuthRecoveryCodes
        = sampleUserNo2FA.twoFactorAuthRecoveryCodes) :=
  addTwoFactor_recovery_codes true true sampleUserNo2FA false none sampleTotpSecret
    false none id (fun s => s ++ "h") (fun _ => "CODE") 1 sampleAddResult (by decide)

/-- C4: every child account of an account edited by
`editAccountFeeStructure` is updated, inside the same database transaction,
with exactly the `hostFeePercent` and `useCustomHostFee` that the parent
account receives. -/
theorem editAccountFeeStructure_cascades (canUseHost isHostAdmin : Bool)
    (host : HostRow) (account : FeeAccount) (children : List FeeAccount)
    (pct : ℚ) (isCustomFee : Bool) (r : FeeStructureResult)
    (h : editAccountFeeStructure canUseHost isHostAdmin host account children pct isCustomFee
      = Except.ok r) :
    r.children = children.map (fun c => { c with
      hostFeePercent := r.account.hostFeePercent
      useCustomHostFee := r.account.useCustomHostFee }) := by
  unfold editAccountFeeStructure at h
  split at h
  · exact Except.noConfusion h
  split at h
  · exact Except.noConfusion h
  split at h
  · exact Except.noConfusion h
  split at h
  · exact Except.noConfusion h
  injection h with h
  subst h
  rfl

/-- A host charging 8% by default. -/
def feeHost : HostRow := { hostFeePercent := 8 }

/-- A hosted, approved account at 5% with no custom fee. -/
def feeAccount1 : FeeAccount :=
  { id := 20, HostCollectiveId := some 1, approved := true
    hostFeePercent := 5, useCustomHostFee := some false }

/-- A child (event/project) of `feeAccount1`. -/
def feeChild1 : FeeAccount :=
  { id := 21, HostCollectiveId := some 1, approved := true
    hostFeePercent := 5, useCustomHostFee := none }

/-- The result of `editAccountFeeStructure` on `feeAccount1` with
`hostFeePercent := 12`, `isCustomFee := true`. -/
def feeResult1 : FeeStructureResult :=
  { account := { feeAccount1 with hostFeePercent := 12, useCustomHostFee := some true }
    children := [{ feeChild1 with hostFeePercent := 12, useCustomHostFee := some true }]
    activity := { prevHostFeePercent := 5, prevUseCustomHostFee := some false
                  newHostFeePercent := 12, newUseCustomHostFee := true } }

/-- Witness for C4 at `feeAccount1` with one child and a custom 12%% fee. -/
theorem editAccountFeeStructure_cascades_witness :
    feeResult1.children = [feeChild1].map (fun c => { c with
      hostFeePercent := feeResult1.account.hostFeePercent
      useCustomHostFee := feeResult1.account.useCustomHostFee }) :=
  editAccountFeeStructure_cascades true true feeHost feeAccount1 [feeChild1] 12 true
    feeResult1 (by norm_num [editAccountFeeStructure, feeHost, feeAccount1, feeChild1, feeResult1])

/-- C10: when `isCustomFee` is `false` the submitted `hostFeePercent` is
ignored and the host's own `hostFeePercent` is applied to the account and
all its children; the submitted value only takes effect when `isCustomFee`
is `true`; yet the audit activity's `newData` always records the submitted
`hostFeePercent`. -/
theorem editAccountFeeStructure_customFlag (canUseHost isHostAdmin : Bool)
    (host : HostRow) (account : FeeAccount) (children : List FeeAccount)
    (pct : ℚ) (isCustomFee : Bool) (r : FeeStructureResult)
    (h : editAccountFeeStructure canUseHost isHostAdmin host account children pct isCustomFee
      = Except.ok r) :
    (isCustomFee = false → r.account.hostFeePercent = host.hostFeePercent ∧
      ∀ c ∈ r.children, c.hostFeePercent = host.hostFeePercent) ∧
    (isCustomFee = true → r.account.hostFeePercent = pct ∧
      ∀ c ∈ r.children, c.hostFeePercent = pct) ∧
    r.activity.newHostFeePercent = pct ∧
    r.activity.newUseCustomHostFee = isCustomFee := by
  unfold editAccountFeeStructure at h
  split at h
  · exact Except.noConfusion h
  split at h
  · exact Except.noConfusion h
  split at h
  · exact Except.noConfusion h
  split at h
  · exact Except.noConfusion h
  injection h with h
  subst h
  refine ⟨?_, ?_, rfl, rfl⟩
  · intro hfalse
    constructor
    · simp [hfalse]
    · intro c hc
      simp only [List.mem_map] at hc
      obtain ⟨a, _, rfl⟩ := hc
      simp [hfalse]
  · intro htrue
    constructor
    · simp [htrue]
    · intro c hc
      simp only [List.mem_map] at hc
      obtain ⟨a, _, rfl⟩ := hc
      simp [htrue]

/-- The result of `editAccountFeeStructure` on `feeAccount1` with
`hostFeePercent := 12`, `isCustomFee := false`: the host's 8%% is applied
while the audit activity records 12. -/
def feeResult2 : FeeStructureResult :=
  { account := { feeAccount1 with hostFeePercent := 8, useCustomHostFee := some false }
    children := [{ feeChild1 with hostFeePercent := 8, useCustomHostFee := some false }]
    activity := { prevHostFeePercent := 5, prevUseCustomHostFee := some false
                  newHostFeePercent := 12, newUseCustomHostFee := false } }

/-- Witness for C10: with `isCustomFee = false` and submitted 12%%, the
applied fee is the host's 8%% everywhere while the audit row stores 12. -/
theorem editAccountFeeStructure_customFlag_witness :
    (false = false → feeResult2.account.hostFeePercent = feeHost.hostFeePercent ∧
      ∀ c ∈ feeResult2.children, c.hostFeePercent = feeHost.hostFeePercent) ∧
    (false = true → feeResult2.account.hostFeePercent = (12 : ℚ) ∧
      ∀ c ∈ feeResult2.children, c.hostFeePercent = (12 : ℚ)) ∧
    feeResult2.activity.newHostFeePercent = (12 : ℚ) ∧
    feeResult2.activity.newUseCustomHostFee = false :=
  editAccountFeeStructure_customFlag true true feeHost feeAccount1 [feeChild1] 12 false
    feeResult2 (by norm_num [editAccountFeeStructure, feeHost, feeAccount1, feeChild1, feeResult2])

/-- C7: with an authorized caller (host scope usable, caller admin of the
account's host), `editAccountFreezeStatus` throws a validation error for
every account whose type is not COLLECTIVE or FUND, and performs the
freeze/unfreeze for COLLECTIVE and FUND accounts. -/
theorem editAccountFreezeStatus_type_restriction (account : FreezeAccount)
    (action : FreezeAction) (hst : Host) (hHost : account.host = some hst) :
    (account.type ≠ CollectiveType.COLLECTIVE ∧ account.type ≠ CollectiveType.FUND →
      editAccountFreezeStatus true true account action
        = Except.error (GqlError.ValidationFailed "Only collective and funds can be frozen. To freeze children accounts (projects, events) you need to freeze the parent account.")) ∧
    (account.type = CollectiveType.COLLECTIVE ∨ account.type = CollectiveType.FUND →
      editAccountFreezeStatus true true account action
        = Except.ok { account with isFrozen := decide (action = FreezeAction.FREEZE) }) := by
  constructor
  · rintro ⟨h1, h2⟩
    unfold editAccountFreezeStatus
    rw [hHost]
    simp [h1, h2]
  · intro hty
    have hcond : ¬(account.type ≠ CollectiveType.COLLECTIVE ∧ account.type ≠ CollectiveType.FUND) := by
      rcases hty with h | h <;> simp [h]
    unfold editAccountFreezeStatus
    rw [hHost]
    cases action with
    | FREEZE => simp [hcond]
    | UNFREEZE => simp [hcond]

/-- An EVENT account hosted by `sampleHost`. -/
def freezeEventAccount : FreezeAccount :=
  { id := 30, type := CollectiveType.EVENT, host := some sampleHost, isFrozen := false }

/-- Witness for C7: freezing the concrete EVENT account is rejected with a
validation error; were its type COLLECTIVE or FUND the freeze would go
through. -/
theorem editAccountFreezeStatus_type_restriction_witness :
    (freezeEventAccount.type ≠ CollectiveType.COLLECTIVE ∧
        freezeEventAccount.type ≠ CollectiveType.FUND →
      editAccountFreezeStatus true true freezeEventAccount FreezeAction.FREEZE
        = Except.error (GqlError.ValidationFailed "Only collective and funds can be frozen. To freeze children accounts (projects, events) you need to freeze the parent account.")) ∧
    (freezeEventAccount.type = CollectiveType.COLLECTIVE ∨
        freezeEventAccount.type = CollectiveType.FUND →
      editAccountFreezeStatus true true freezeEventAccount FreezeAction.FREEZE
        = Except.ok { freezeEventAccount with
            isFrozen := decide (FreezeAction.FREEZE = FreezeAction.FREEZE) }) :=
  editAccountFreezeStatus_type_restriction freezeEventAccount FreezeAction.FREEZE
    sampleHost rfl

/-- Helper: an accepted `refundTransaction` call returns exactly the
opposing entry of the refunded transaction with a zero processor fee. -/
theorem refundTransaction_ok_shape (balanceOf : Nat → ℚ)
    (fromRow collRow : RefundCollective) (tx : LedgerTransaction) (r : RefundResult)
    (h : refundTransaction balanceOf fromRow collRow tx = Except.ok r) :
    r = { refundEntry := createRefundTransaction tx, refundedPaymentProcessorFee := 0 } := by
  unfold refundTransaction at h
  dsimp only at h
  split at h
  · exact Except.noConfusion h
  split at h
  · exact Except.noConfusion h
  split at h
  · exact Except.noConfusion h
  injection h with h
  exact h.symm

/-- Helper: the refund entry's effect on any account is the exact negative
of the original entry's effect. -/
theorem entryEffect_createRefund (t : LedgerTransaction) (c : Nat) :
    entryEffect c (createRefundTransaction t) = - entryEffect c t.entry := by
  unfold entryEffect createRefundTransaction LedgerTransaction.entry
  dsimp only
  split_ifs <;> ring

/-- C5: for every refund accepted by `refundTransaction`, appending the
original transaction's ledger entry and the refund entry leaves every
account's balance — in particular the recipient's — where it stood before
the original transaction was applied. -/
theorem refund_restores_balance (balanceOf : Nat → ℚ)
    (fromRow collRow : RefundCollective) (tx : LedgerTransaction) (r : RefundResult)
    (h : refundTransaction balanceOf fromRow collRow tx = Except.ok r)
    (ledger : List Entry) (c : Nat) :
    balanceOfLedger (ledger ++ [tx.entry, r.refundEntry]) c = balanceOfLedger ledger c := by
  rw [refundTransaction_ok_shape balanceOf fromRow collRow tx r h]
  simp [balanceOfLedger, entryEffect_createRefund]

/-- A fetched recipient row sharing `refundFromRow`'s host. -/
def refundCollRowSame : RefundCollective := { id := 3, HostCollectiveId := some 1, currency := "USD" }

/-- The accepted refund of `sampleLedgerTx`. -/
def sampleRefundResult : RefundResult :=
  { refundEntry := createRefundTransaction sampleLedgerTx, refundedPaymentProcessorFee := 0 }

/-- Witness for C5: the concrete same-host refund restores collective 3's
balance on the empty ledger. -/
theorem refund_restores_balance_witness :
    balanceOfLedger ([] ++ [sampleLedgerTx.entry, sampleRefundResult.refundEntry]) 3
      = balanceOfLedger [] 3 :=
  refund_restores_balance (fun _ => 1000) refundFromRow refundCollRowSame sampleLedgerTx
    sampleRefundResult
    (by norm_num [refundTransaction, resolvedPair, refundFromRow, refundCollRowSame,
      sampleLedgerTx, sampleRefundResult])
    [] 3

/-- C6: once the earlier checks pass (payer active, payment method owned by
the payer, both hosts present and equal), `processOrder` rejects with an
error exactly when the balance returned by `getBalance` for the order's
payment method is strictly below `order.totalAmount`, and otherwise
proceeds past the balance check and creates the transaction payload. -/
theorem processOrder_balance_check (fxRate : String → String → ℚ)
    (getBalance : PaymentMethod → ℚ) (order : Order) (fh ch : Host)
    (hActive : order.fromCollective.isActive = true)
    (hOwn : order.paymentMethod.CollectiveId = order.fromCollective.id)
    (hfh : order.fromCollective.host = some fh) (hch : order.collective.host = some ch)
    (hSame : fh.id = ch.id) :
    (getBalance order.paymentMethod < order.totalAmount →
      processOrder fxRate getBalance order
        = Except.error "Not enough funds available to execute this order") ∧
    (¬ getBalance order.paymentMethod < order.totalAmount →
      ∃ t, processOrder fxRate getBalance order = Except.ok t) := by
  constructor
  · intro hlt
    unfold processOrder
    rw [hfh, hch]
    simp only [hActive, hOwn, hSame]
    simp [hlt]
  · intro hge
    unfold processOrder
    rw [hfh, hch]
    simp only [hActive, hOwn, hSame]
    simp [hge]

/-- Witness for C6 at `sampleOrder`: the balance 5000 covers 1000, so the
order proceeds; had the balance been below 1000 it would error. -/
theorem processOrder_balance_check_witness :
    (sampleGetBalance sampleOrder.paymentMethod < sampleOrder.totalAmount →
      processOrder sampleFx sampleGetBalance sampleOrder
        = Except.error "Not enough funds available to execute this order") ∧
    (¬ sampleGetBalance sampleOrder.paymentMethod < sampleOrder.totalAmount →
      ∃ t, processOrder sampleFx sampleGetBalance sampleOrder = Except.ok t) :=
  processOrder_balance_check sampleFx sampleGetBalance sampleOrder sampleHost sampleHost
    rfl rfl rfl rfl rfl

/-- C8: every refund accepted by `refundTransaction` satisfies the three
conditions the source checks and records: the resolved payer has a host and
it equals the resolved recipient's host, the recipient's balance covers the
refunded amount, and the opposing entry is handed to
`createRefundTransaction` with a processor fee of exactly zero. -/
theorem refundTransaction_accept_conditions (balanceOf : Nat → ℚ)
    (fromRow collRow : RefundCollective) (tx : LedgerTransaction) (r : RefundResult)
    (h : refundTransaction balanceOf fromRow collRow tx = Except.ok r) :
    (resolvedPair tx fromRow collRow).1.HostCollectiveId ≠ none ∧
    (resolvedPair tx fromRow collRow).1.HostCollectiveId
      = (resolvedPair tx fromRow collRow).2.HostCollectiveId ∧
    tx.amount ≤ balanceOf (resolvedPair tx fromRow collRow).2.id ∧
    r.refundEntry = createRefundTransaction tx ∧
    r.refundedPaymentProcessorFee = 0 := by
  have hshape := refundTransaction_ok_shape balanceOf fromRow collRow tx r h
  unfold refundTransaction at h
  dsimp only at h
  split at h
  · exact Except.noConfusion h
  · rename_i hostId hhost
    split at h
    · exact Except.noConfusion h
    · rename_i hne
      split at h
      · exact Except.noConfusion h
      · rename_i hbal
        refine ⟨by rw [hhost]; simp, not_not.mp hne, not_lt.mp hbal, ?_, ?_⟩
        · rw [hshape]
        · rw [hshape]

/-- Witness for C8: the concrete accepted same-host refund satisfies all
three recorded conditions. -/
theorem refundTransaction_accept_conditions_witness :
    (resolvedPair sampleLedgerTx refundFromRow refundCollRowSame).1.HostCollectiveId ≠ none ∧
    (resolvedPair sampleLedgerTx refundFromRow refundCollRowSame).1.HostCollectiveId
      = (resolvedPair sampleLedgerTx refundFromRow refundCollRowSame).2.HostCollectiveId ∧
    sampleLedgerTx.amount
      ≤ (fun _ => (1000 : ℚ)) (resolvedPair sampleLedgerTx refundFromRow refundCollRowSame).2.id ∧
    sampleRefundResult.refundEntry = createRefundTransaction sampleLedgerTx ∧
    sampleRefundResult.refundedPaymentProcessorFee = 0 :=
  refundTransaction_accept_conditions (fun _ => 1000) refundFromRow refundCollRowSame
    sampleLedgerTx sampleRefundResult
    (by norm_num [refundTransaction, resolvedPair, refundFromRow, refundCollRowSame,
      sampleLedgerTx, sampleRefundResult])

/-- Helper: behaviour of the post-reference-check body of
`removeTwoFactorAuthTokenFromIndividual`: reject when 2FA is already
disabled, reach deletion only if the session's 2FA assertion re-validates,
and clear the stored recovery codes exactly when no method remains. -/
theorem removeTwoFactorAuthBody_spec (ref : Option UserTwoFactorMethodRow)
    (user : UserRow) (argType : Option TwoFactorMethod) (validated : Bool) :
    (user.methods = [] →
      removeTwoFactorAuthBody ref (some user) argType validated
        = Except.error (GqlError.Unauthorized "This account already has 2FA disabled.")) ∧
    (validated = false → user.methods ≠ [] →
      removeTwoFactorAuthBody ref (some user) argType validated
        = Except.error (GqlError.Unauthorized "Two-factor authentication required")) ∧
    (∀ u', removeTwoFactorAuthBody ref (some user) argType validated = Except.ok u' →
      validated = true ∧
      (u'.methods = [] → u'.twoFactorAuthRecoveryCodes = none) ∧
      (u'.methods ≠ [] → u'.twoFactorAuthRecoveryCodes = user.twoFactorAuthRecoveryCodes)) := by
  refine ⟨?_, ?_, ?_⟩
  · intro hnil
    unfold removeTwoFactorAuthBody
    dsimp only
    rw [if_pos (by simp [hnil])]
  · intro hv hne
    unfold removeTwoFactorAuthBody
    dsimp only
    rw [if_neg (fun h0 => hne (List.length_eq_zero.mp h0)), if_pos hv]
  · intro u' h
    unfold removeTwoFactorAuthBody at h
    dsimp only at h
    split at h
    · exact Except.noConfusion h
    · rename_i hlen
      split at h
      · exact Except.noConfusion h
      · rename_i hval
        refine ⟨eq_true_of_ne_false hval, ?_, ?_⟩
        · intro hnil'
          split at h
          · injection h with h
            subst h
            rfl
          · rename_i hrem
            injection h with h
            subst h
            exact absurd (by simpa using hnil') hrem
        · intro hne'
          split at h
          · rename_i hrem
            injection h with h
            subst h
            exact absurd (List.length_eq_zero.mp hrem) (by simpa using hne')
          · injection h with h
            subst h
            rfl

/-- C9: given an authorized caller and a well-referenced (or absent) method
argument, `removeTwoFactorAuthTokenFromIndividual` (i) fails with an
authorization error when the user has zero enrolled methods, (ii) fails
before deleting anything when the session's 2FA assertion does not
re-validate, and (iii) on success has run with a validated assertion and
leaves the stored recovery codes `null` exactly when no method remains,
untouched otherwise. -/
theorem removeTwoFactor_guards (methodRefArg : Option (Option UserTwoFactorMethodRow))
    (remoteUserId : Nat) (user : UserRow) (argType : Option TwoFactorMethod)
    (validated : Bool)
    (hRef : methodRefArg = none ∨
      ∃ m, methodRefArg = some (some m) ∧ m.UserId = remoteUserId) :
    (user.methods = [] →
      removeTwoFactorAuthTokenFromIndividual true true methodRefArg remoteUserId
          (some user) argType validated
        = Except.error (GqlError.Unauthorized "This account already has 2FA disabled.")) ∧
    (validated = false → user.methods ≠ [] →
      removeTwoFactorAuthTokenFromIndividual true true methodRefArg remoteUserId
          (some user) argType validated
        = Except.error (GqlError.Unauthorized "Two-factor authentication required")) ∧
    (∀ u', removeTwoFactorAuthTokenFromIndividual true true methodRefArg remoteUserId
          (some user) argType validated = Except.ok u' →
      validated = true ∧
      (u'.methods = [] → u'.twoFactorAuthRecoveryCodes = none) ∧
      (u'.methods ≠ [] → u'.twoFactorAuthRecoveryCodes = user.twoFactorAuthRecoveryCodes)) := by
  have hred : removeTwoFactorAuthTokenFromIndividual true true methodRefArg remoteUserId
      (some user) argType validated
      = removeTwoFactorAuthBody (methodRefArg.getD none) (some user) argType validated := by
    rcases hRef with hnone | ⟨m, hm, huid⟩
    · subst hnone
      rfl
    · subst hm
      unfold removeTwoFactorAuthTokenFromIndividual
      simp [huid]
  rw [hred]
  exact removeTwoFactorAuthBody_spec (methodRefArg.getD none) user argType validated

/-- A user with a single TOTP credential enrolled. -/
def sampleUserWith2FA : UserRow :=
  { id := 7, CollectiveId := 5
    methods := [{ id := 1, UserId := 7, method := TwoFactorMethod.TOTP
                  name := "Authenticator", data := "secret" }]
    twoFactorAuthRecoveryCodes := some (List.replicate 6 "CODEh") }

/-- Witness for C9: removing all methods from `sampleUserWith2FA` with no
method reference and a validated session. -/
theorem removeTwoFactor_guards_witness :
    (sampleUserWith2FA.methods = [] →
      removeTwoFactorAuthTokenFromIndividual true true none 7
          (some sampleUserWith2FA) none true
        = Except.error (GqlError.Unauthorized "This account already has 2FA disabled.")) ∧
    (true = false → sampleUserWith2FA.methods ≠ [] →
      removeTwoFactorAuthTokenFromIndividual true true none 7
          (some sampleUserWith2FA) none true
        = Except.error (GqlError.Unauthorized "Two-factor authentication required")) ∧
    (∀ u', removeTwoFactorAuthTokenFromIndividual true true none 7
          (some sampleUserWith2FA) none true = Except.ok u' →
      true = true ∧
      (u'.methods = [] → u'.twoFactorAuthRecoveryCodes = none) ∧
      (u'.methods ≠ [] →
        u'.twoFactorAuthRecoveryCodes = sampleUserWith2FA.twoFactorAuthRecoveryCodes)) :=
  removeTwoFactor_guards none 7 sampleUserWith2FA none true (Or.inl rfl)

end OC
